import Mathlib

/-!
Verification of `homework.py`, a polling bot that watches a homework-review
API and relays status changes to a Telegram chat.

The embedding below translates the five functions of the source
(`check_tokens`, `send_message`, `get_api_answer`, `check_response`,
`parse_status`) and the `main` polling loop into Lean.  Decoded JSON values
are modelled by the inductive `PyVal`; Python exceptions by `PyError`; the
network, the wall clock and the Telegram delivery outcomes of one loop
iteration are supplied by an `IterEnv` oracle, and one pass through the
`while True` body is the function `runIter`.
-/

namespace HomeworkBot

/-- Decoded Python/JSON value, as produced by `response.json()`.
Dictionaries are association lists with string keys (first match wins). -/
inductive PyVal where
  | str (s : String)
  | int (n : Int)
  | bool (b : Bool)
  | noneV
  | list (xs : List PyVal)
  | dict (ps : List (String × PyVal))

mutual

/-- Python `repr` of a decoded value (strings quoted, `True`/`None` spelling). -/
def pyRepr : PyVal → String
  | .str s => "\x27" ++ s ++ "\x27"
  | .int n => toString n
  | .bool b => if b then "True" else "False"
  | .noneV => "None"
  | .list xs => "[" ++ String.intercalate ", " (pyReprList xs) ++ "]"
  | .dict ps => "\x7b" ++ String.intercalate ", " (pyReprPairs ps) ++ "\x7d"

/-- `repr` of the elements of a Python list. -/
def pyReprList : List PyVal → List String
  | [] => []
  | x :: xs => pyRepr x :: pyReprList xs

/-- `repr` of the entries of a Python dict. -/
def pyReprPairs : List (String × PyVal) → List String
  | [] => []
  | (k, v) :: ps => ("\x27" ++ k ++ "\x27: " ++ pyRepr v) :: pyReprPairs ps

end

/-- Python `str` of a decoded value, as used by f-string interpolation:
identity on strings, `repr` on everything else. -/
def pyStr : PyVal → String
  | .str s => s
  | v => pyRepr v

/-- A Python exception as it escapes one of the embedded functions.
`external` stands for an exception raised by the Telegram library inside
`bot.send_message` and re-raised verbatim by `send_message` (line 71). -/
inductive PyError where
  | typeError (msg : String)
  | keyError (msg : String)
  | valueError (msg : String)
  | exception (msg : String)
  | external (msg : String)
deriving DecidableEq

/-- Python `str()` of an exception: `KeyError` wraps its argument in quotes
(`str(KeyError("m")) == "'m'"`); the other kinds render their message. -/
def errStr : PyError → String
  | .typeError m => m
  | .keyError m => "\x27" ++ m ++ "\x27"
  | .valueError m => m
  | .exception m => m
  | .external m => m

/-- Constructor name of the exception, i.e. the Python exception class. -/
def errKind : PyError → String
  | .typeError _ => "TypeError"
  | .keyError _ => "KeyError"
  | .valueError _ => "ValueError"
  | .exception _ => "Exception"
  | .external _ => "TelegramError"

/-- Does one character list start with another (needle first)? -/
def charsStartWith : List Char → List Char → Bool
  | [], _ => true
  | _ :: _, [] => false
  | a :: as, b :: bs => a = b && charsStartWith as bs

/-- Does the needle occur somewhere in the haystack? -/
def charsHave (n : List Char) : List Char → Bool
  | [] => n.isEmpty
  | c :: t => charsStartWith n (c :: t) || charsHave n t

/-- Substring test used to state that an error message names a key/value. -/
def strContains (hay needle : String) : Bool :=
  charsHave needle.data hay.data

/-- Module constant `RETRY_PERIOD` (line 17): seconds between poll cycles. -/
def RETRY_PERIOD : Nat := 600

/-- Module constant `ENDPOINT` (line 18). -/
def ENDPOINT : String := "https://practicum.yandex.ru/api/user_api/homework_statuses/"

/-- Module constant `HOMEWORK_VERDICTS` (lines 20-24). -/
def HOMEWORK_VERDICTS : List (String × String) :=
  [("approved", "Работа проверена: ревьюеру всё понравилось. Ура!"),
   ("reviewing", "Работа взята на проверку ревьюером."),
   ("rejected", "Работа проверена: у ревьюера есть замечания.")]

/-- Python `status in HOMEWORK_VERDICTS` (dict keys are strings, so only a
string status can be a member); returns the verdict on membership. -/
def verdictOf : PyVal → Option String
  | .str s => List.lookup s HOMEWORK_VERDICTS
  | _ => Option.none

/-- Embeds `check_response` (lines 104-128): the response must be a dict,
must contain key `homeworks` whose value is a list, and must contain key
`current_date`; returns the homeworks list (an empty list is returned
normally, with only a debug log). -/
def check_response (response : PyVal) : Except PyError (List PyVal) :=
  match response with
  | .dict d =>
    match List.lookup "homeworks" d with
    | Option.none =>
      .error (.keyError "В ответе API отсутствует ключ \"homeworks\"")
    | some (.list hws) =>
      match List.lookup "current_date" d with
      | Option.none =>
        .error (.keyError "В ответе API отсутствует ключ \"current_date\".")
      | some _ => .ok hws
    | some _ =>
      .error (.typeError "Значение ключа \"homeworks\" не является списком")
  | _ => .error (.typeError "Ответ API не является словарем")

/-- Embeds `parse_status` (lines 131-155): the record must be a dict with
keys `homework_name` and `status`, the status must be a key of
`HOMEWORK_VERDICTS`; returns the rendered notification text. -/
def parse_status (homework : PyVal) : Except PyError String :=
  match homework with
  | .dict d =>
    match List.lookup "homework_name" d with
    | Option.none =>
      .error (.keyError "Отсутствует ключ \"homework_name\" в \"homework\".")
    | some name_v =>
      match List.lookup "status" d with
      | Option.none =>
        .error (.keyError "Отсутствует ключ \"status\" в \"homework\".")
      | some status_v =>
        match verdictOf status_v with
        | Option.none =>
          .error (.valueError
            ("Неизвестный статус домашней работы: \"" ++ pyStr status_v ++ "\"."))
        | some verdict =>
          .ok ("Изменился статус проверки работы \"" ++ pyStr name_v ++ "\". " ++ verdict)
  | _ => .error (.typeError "Элемент домашней работы не является словарем.")

/-- Outcome of the one `requests.get` call of an iteration: either a
transport-level failure (`requests.exceptions.RequestException`) or a
response with an HTTP status code and a body whose JSON decoding either
fails (`ValueError` message) or yields a value. -/
inductive HttpOutcome where
  | transportError (msg : String)
  | response (status : Nat) (body : Except String PyVal)

/-- The message of the exception raised by the `except RequestException`
handler of `get_api_answer` (lines 90-93):
`Exception(f'Ошибка API: Сбой при запросе к эндпоинту ENDPOINT: str(error)')`. -/
def apiFailMessage (detail : String) : String :=
  "Ошибка API: Сбой при запросе к эндпоинту " ++ ENDPOINT ++ ": " ++ detail

/-- Embeds `get_api_answer` (lines 74-101).  A non-200 status raises
`requests.exceptions.HTTPError` inside the `try` block (line 88); since
`HTTPError` is a subclass of `RequestException`, that raise is caught by
the handler at line 90, which re-raises a plain
`Exception(apiFailMessage (str error))` — exactly as a transport failure
is.  An undecodable body re-raises its `ValueError` unchanged
(lines 94-97). -/
def get_api_answer (timestamp : PyVal) : HttpOutcome → Except PyError PyVal
  | .transportError msg =>
    .error (.exception (apiFailMessage msg))
  | .response status body =>
    if status ≠ 200 then
      .error (.exception
        (apiFailMessage ("Получен неожиданный статус кода: " ++ toString status)))
    else
      match body with
      | .error msg => .error (.valueError msg)
      | .ok v => .ok v

/-- Arguments of the `requests.get` call at line 82:
`requests.get(ENDPOINT, headers=HEADERS, params=payload)`.  The call passes
no `timeout` argument, so the `requests` default of no timeout applies. -/
structure RequestArgs where
  url : String
  from_date : PyVal
  timeout : Option Nat

/-- The GET request issued by `get_api_answer` for a given cursor value. -/
def apiRequestArgs (timestamp : PyVal) : RequestArgs :=
  { url := ENDPOINT, from_date := timestamp, timeout := Option.none }

/-- Embeds the `missing_tokens` list built by `check_tokens` (lines 42-48),
in source order; a token is missing when the environment variable is unset
or empty (Python truthiness of `os.getenv`). -/
def missing_tokens (p t c : Option String) : List String :=
  (if p.getD "" = "" then ["PRACTICUM_TOKEN"] else []) ++
  (if t.getD "" = "" then ["TELEGRAM_TOKEN"] else []) ++
  (if c.getD "" = "" then ["TELEGRAM_CHAT_ID"] else [])

/-- The fatal startup message of `check_tokens` (lines 50-53). -/
def tokensErrorMessage (missing : List String) : String :=
  "Отсутствуют обязательные переменные окружения: " ++
    String.intercalate ", " missing ++ ". Программа остановлена."

/-- Embeds `check_tokens` (lines 37-57): when any token is missing the
message listing all missing names is logged at critical level and passed to
`sys.exit` (which terminates the process with status 1); otherwise the
function returns normally. -/
def check_tokens (p t c : Option String) : Except String Unit :=
  if missing_tokens p t c ≠ [] then
    .error (tokensErrorMessage (missing_tokens p t c))
  else
    .ok ()

/-- Mutable loop state of `main`: the cursor `timestamp` (line 164, updated
at line 181) and `last_error_message` (line 160, updated at lines 183 and
190).  There is no last-sent *status* text in the source. -/
structure PollState where
  timestamp : PyVal
  last_error_message : Option String

/-- Environment oracle for one iteration of the `while True` body: the
network outcome of the `requests.get` call, the wall clock value
`int(time.time())` (used at line 181 only if `current_date` is absent), the
delivery outcome of the k-th status `send_message` call of the iteration
(with the `str` of the Telegram exception should it fail), and the delivery
outcome of an error-notification `send_message` call (line 189). -/
structure IterEnv where
  api : HttpOutcome
  now : Int
  sendOk : Nat → Bool
  sendFailMsg : Nat → String
  errorSendOk : Bool

/-- Observable outcome of one iteration: the state handed to the next
iteration, the cursor value that was passed to `get_api_answer` (line 169),
the status-notification `send_message` calls in order (text, delivered?),
the error-notification call if one was attempted, the rendered error text
`Сбой в работе программы: ...` when the `except` path ran (line 185), and
whether the `finally` sleep (line 200) was reached. -/
structure IterResult where
  state : PollState
  requested : PyVal
  sends : List (String × Bool)
  errorSend : Option (String × Bool)
  errorText : Option String
  slept : Bool

/-- Did the iteration take the `except Exception` path (lines 184-195)? -/
def IterResult.failed (r : IterResult) : Bool :=
  r.errorText.isSome

/-- Embeds the `for homework in homeworks` loop (lines 176-178): each record
is rendered by `parse_status` and sent with `send_message`; the first
parse failure or delivery failure aborts the loop with that exception
(`send_message` logs and re-raises, line 71).  Returns the send calls made
and the escaping exception, if any. -/
def runSends (env : IterEnv) : Nat → List (String × Bool) → List PyVal →
    List (String × Bool) × Option PyError
  | _, acc, [] => (acc, Option.none)
  | idx, acc, hw :: rest =>
    match parse_status hw with
    | .error e => (acc, some e)
    | .ok text =>
      if env.sendOk idx then
        runSends env (idx + 1) (acc ++ [(text, true)]) rest
      else
        (acc ++ [(text, false)], some (.external (env.sendFailMsg idx)))

/-- The `try` block of the loop body (lines 167-181 up to the cursor
update): fetch, validate, then send one notification per record.  Returns
the status sends made and either the escaping exception or the decoded
response (needed afterwards for the cursor update at line 181). -/
def tryPhase (st : PollState) (env : IterEnv) :
    List (String × Bool) × Except PyError PyVal :=
  match get_api_answer st.timestamp env.api with
  | .error e => ([], .error e)
  | .ok response =>
    match check_response response with
    | .error e => ([], .error e)
    | .ok homeworks =>
      match runSends env 0 [] homeworks with
      | (sends, some e) => (sends, .error e)
      | (sends, Option.none) => (sends, .ok response)

/-- Cursor update at line 181: `response.get('current_date', int(time.time()))`. -/
def tsUpdate (response : PyVal) (now : Int) : PyVal :=
  match response with
  | .dict d => (List.lookup "current_date" d).getD (.int now)
  | _ => .int now

/-- Lines 182-183: `if last_error_message: last_error_message = None`.
Python truthiness: an empty string is falsy and would be kept as is. -/
def resetLast : Option String → Option String
  | some s => if s = "" then some s else Option.none
  | Option.none => Option.none

/-- Tail of a successful iteration (lines 181-183): advance the cursor and
clear the last error message. -/
def successFinish (st : PollState) (env : IterEnv) (response : PyVal)
    (sends : List (String × Bool)) : IterResult :=
  { state := { timestamp := tsUpdate response env.now,
               last_error_message := resetLast st.last_error_message },
    requested := st.timestamp,
    sends := sends,
    errorSend := Option.none,
    errorText := Option.none,
    slept := true }

/-- The text `current_error_message` rendered at line 185:
`f'Сбой в работе программы: {error}'`. -/
def renderFailure (e : PyError) : String :=
  "Сбой в работе программы: " ++ errStr e

/-- The `except Exception` handler (lines 184-195): render the error text;
if it differs from `last_error_message`, attempt one `send_message` — on
success remember the text, on failure only log (inner `except`, lines
191-195) and leave `last_error_message` unchanged; identical text is
suppressed without a send. -/
def handleError (st : PollState) (env : IterEnv)
    (sends : List (String × Bool)) (e : PyError) : IterResult :=
  if st.last_error_message = some (renderFailure e) then
    { state := st, requested := st.timestamp, sends := sends,
      errorSend := Option.none, errorText := some (renderFailure e), slept := true }
  else if env.errorSendOk then
    { state := { st with last_error_message := some (renderFailure e) },
      requested := st.timestamp, sends := sends,
      errorSend := some (renderFailure e, true), errorText := some (renderFailure e),
      slept := true }
  else
    { state := st, requested := st.timestamp, sends := sends,
      errorSend := some (renderFailure e, false), errorText := some (renderFailure e),
      slept := true }

/-- One full pass through the `while True` body (lines 166-200):
`try`-phase, `except`-handler, and the unconditional `finally` sleep. -/
def runIter (st : PollState) (env : IterEnv) : IterResult :=
  match tryPhase st env with
  | (sends, .ok response) => successFinish st env response sends
  | (sends, .error e) => handleError st env sends e

/-- Runs the loop body once per supplied environment, threading the state. -/
def runLoop (st : PollState) : List IterEnv → List IterResult
  | [] => []
  | env :: envs =>
    let r := runIter st env
    r :: runLoop r.state envs

/-- Embeds `main` (lines 158-200): `check_tokens` first — on a missing
token the process exits with status 1 and the critical message, before any
loop iteration; otherwise the loop starts from
`timestamp = int(time.time())` and `last_error_message = None`. -/
def runMain (p t c : Option String) (now : Int) (envs : List IterEnv) :
    Option (Nat × String) × List IterResult :=
  match check_tokens p t c with
  | .error m => (some (1, m), [])
  | .ok _ =>
    (Option.none,
     runLoop { timestamp := .int now, last_error_message := Option.none } envs)

/-- The decoded API response of an iteration, when `get_api_answer`
succeeds. -/
def decodedResponse (st : PollState) (env : IterEnv) : Option PyVal :=
  match get_api_answer st.timestamp env.api with
  | .ok r => some r
  | .error _ => Option.none

/-!  Helper predicates and fixtures used by the statements below. -/

/-- Did the call return normally (no exception)? -/
def exceptOk {ε α : Type} : Except ε α → Bool
  | .ok _ => true
  | .error _ => false

/-- A structural (shape) violation: Python `TypeError` or `KeyError`, the
two kinds `check_response` raises. -/
def isShapeError : PyError → Bool
  | .typeError _ => true
  | .keyError _ => true
  | _ => false

/-- Is the value a Python mapping? -/
def isDict : PyVal → Bool
  | .dict _ => true
  | _ => false

/-- Spec-side shape predicate for C6, following the claim's words: the
input is a mapping that has the key `homeworks` with a list value and has
the key `current_date`. -/
def goodShapeSpec : PyVal → Bool
  | .dict d =>
    match List.lookup "homeworks" d with
    | some (.list _) => (List.lookup "current_date" d).isSome
    | _ => false
  | _ => false

/-- Renders every record of a homeworks list with `parse_status`,
propagating the first failure. -/
def listParse : List PyVal → Except PyError (List String)
  | [] => .ok []
  | hw :: rest =>
    match parse_status hw with
    | .error e => .error e
    | .ok text =>
      match listParse rest with
      | .error e => .error e
      | .ok texts => .ok (text :: texts)

/-- A homework record in the `approved` state. -/
def hwA : PyVal := .dict [("homework_name", .str "hw1"), ("status", .str "approved")]

/-- An API response carrying one approved homework. -/
def respA : PyVal := .dict [("homeworks", .list [hwA]), ("current_date", .int 1)]

/-- An iteration environment in which the API returns `respA` and every
Telegram delivery succeeds. -/
def envA : IterEnv :=
  { api := .response 200 (.ok respA), now := 0,
    sendOk := fun _ => true, sendFailMsg := fun _ => "boom", errorSendOk := true }

/-- The loop state right after startup (cursor 0, no last error). -/
def st0 : PollState := { timestamp := .int 0, last_error_message := Option.none }

/-- The rendered status text for `hwA`. -/
def tA : String :=
  "Изменился статус проверки работы \"hw1\". Работа проверена: ревьюеру всё понравилось. Ура!"

/-- An API response lacking the `homeworks` key. -/
def respErr : PyVal := .dict [("current_date", .int 1)]

/-- An iteration environment in which the response lacks `homeworks`. -/
def envErr : IterEnv :=
  { api := .response 200 (.ok respErr), now := 0,
    sendOk := fun _ => true, sendFailMsg := fun _ => "boom", errorSendOk := true }

/-- The error text the loop renders when `homeworks` is missing. -/
def curErr : String :=
  "Сбой в работе программы: \x27В ответе API отсутствует ключ \"homeworks\"\x27"

/-- A loop state whose cursor sits at 100. -/
def stC2 : PollState := { timestamp := .int 100, last_error_message := Option.none }

/-- An API response whose `current_date` (5) lies before the cursor. -/
def respB : PyVal := .dict [("homeworks", .list []), ("current_date", .int 5)]

/-- An iteration environment returning `respB`. -/
def envB : IterEnv :=
  { api := .response 200 (.ok respB), now := 1000,
    sendOk := fun _ => true, sendFailMsg := fun _ => "boom", errorSendOk := true }

/-!  Shared lemmas about the loop embedding. -/

theorem handleError_fields (st : PollState) (env : IterEnv)
    (sends : List (String × Bool)) (e : PyError) :
    (handleError st env sends e).state.timestamp = st.timestamp ∧
    (handleError st env sends e).requested = st.timestamp ∧
    (handleError st env sends e).sends = sends ∧
    (handleError st env sends e).errorText = some (renderFailure e) ∧
    (handleError st env sends e).slept = true := by
  unfold handleError
  split
  · exact ⟨rfl, rfl, rfl, rfl, rfl⟩
  · split
    · exact ⟨rfl, rfl, rfl, rfl, rfl⟩
    · exact ⟨rfl, rfl, rfl, rfl, rfl⟩

theorem handleError_dedup (st : PollState) (env : IterEnv)
    (sends : List (String × Bool)) (e : PyError) :
    (st.last_error_message = some (renderFailure e) →
      (handleError st env sends e).errorSend = Option.none ∧
      (handleError st env sends e).state.last_error_message = st.last_error_message) ∧
    (st.last_error_message ≠ some (renderFailure e) → env.errorSendOk = true →
      (handleError st env sends e).errorSend = some (renderFailure e, true) ∧
      (handleError st env sends e).state.last_error_message = some (renderFailure e)) ∧
    (st.last_error_message ≠ some (renderFailure e) → env.errorSendOk = false →
      (handleError st env sends e).errorSend = some (renderFailure e, false) ∧
      (handleError st env sends e).state.last_error_message = st.last_error_message) := by
  refine ⟨fun h => ?_, fun h hok => ?_, fun h hok => ?_⟩
  · simp [handleError, h]
  · simp [handleError, h, hok]
  · simp [handleError, h, hok]

theorem runIter_success_inv (st : PollState) (env : IterEnv)
    (sends : List (String × Bool)) (response : PyVal)
    (h : tryPhase st env = (sends, Except.ok response)) :
    runIter st env = successFinish st env response sends := by
  unfold runIter
  rw [h]

theorem runIter_failure_inv (st : PollState) (env : IterEnv)
    (sends : List (String × Bool)) (e : PyError)
    (h : tryPhase st env = (sends, Except.error e)) :
    runIter st env = handleError st env sends e := by
  unfold runIter
  rw [h]

theorem runIter_error_inv (st : PollState) (env : IterEnv) (cur : String) :
    (runIter st env).errorText = some cur →
    ∃ sends e, tryPhase st env = (sends, Except.error e) ∧
      runIter st env = handleError st env sends e ∧ cur = renderFailure e := by
  intro h
  rcases ht : tryPhase st env with ⟨sends, res⟩
  cases res with
  | ok r =>
    rw [runIter_success_inv st env sends r ht] at h
    simp [successFinish] at h
  | error e =>
    have hre := runIter_failure_inv st env sends e ht
    rw [hre] at h
    have hcur : some (renderFailure e) = some cur :=
      (handleError_fields st env sends e).2.2.2.1 ▸ h
    exact ⟨sends, e, rfl, hre, (Option.some_inj.mp hcur).symm⟩

theorem runIter_slept (st : PollState) (env : IterEnv) :
    (runIter st env).slept = true := by
  rcases ht : tryPhase st env with ⟨sends, res⟩
  cases res with
  | ok r => rw [runIter_success_inv st env sends r ht]; rfl
  | error e =>
    rw [runIter_failure_inv st env sends e ht]
    exact (handleError_fields st env sends e).2.2.2.2

theorem tryPhase_api_error (st : PollState) (env : IterEnv) (e : PyError)
    (h : get_api_answer st.timestamp env.api = Except.error e) :
    tryPhase st env = ([], Except.error e) := by
  unfold tryPhase
  rw [h]

theorem tryPhase_check_error (st : PollState) (env : IterEnv) (r : PyVal) (e : PyError)
    (hga : get_api_answer st.timestamp env.api = Except.ok r)
    (hcr : check_response r = Except.error e) :
    tryPhase st env = ([], Except.error e) := by
  unfold tryPhase
  simp only [hga, hcr]

theorem tryPhase_sends_done (st : PollState) (env : IterEnv) (r : PyVal)
    (hws : List PyVal) (sends : List (String × Bool))
    (hga : get_api_answer st.timestamp env.api = Except.ok r)
    (hcr : check_response r = Except.ok hws)
    (hrs : runSends env 0 [] hws = (sends, Option.none)) :
    tryPhase st env = (sends, Except.ok r) := by
  unfold tryPhase
  simp only [hga, hcr, hrs]

theorem tryPhase_sends_error (st : PollState) (env : IterEnv) (r : PyVal)
    (hws : List PyVal) (sends : List (String × Bool)) (e : PyError)
    (hga : get_api_answer st.timestamp env.api = Except.ok r)
    (hcr : check_response r = Except.ok hws)
    (hrs : runSends env 0 [] hws = (sends, some e)) :
    tryPhase st env = (sends, Except.error e) := by
  unfold tryPhase
  simp only [hga, hcr, hrs]

theorem runSends_delivered (env : IterEnv) :
    ∀ (hws : List PyVal) (idx : Nat) (acc out : List (String × Bool)),
    runSends env idx acc hws = (out, Option.none) →
    (acc.all fun p => p.2) = true → (out.all fun p => p.2) = true := by
  intro hws
  induction hws with
  | nil =>
    intro idx acc out h hacc
    unfold runSends at h
    injection h with h1 h2
    exact h1 ▸ hacc
  | cons hw rest ih =>
    intro idx acc out h hacc
    unfold runSends at h
    rcases hp : parse_status hw with e | text <;> rw [hp] at h
    · injection h with h1 h2
      exact Option.noConfusion h2
    · rcases hs : env.sendOk idx <;> simp only [hs, if_true, if_false] at h
      · injection h with h1 h2
        exact Option.noConfusion h2
      · exact ih (idx + 1) (acc ++ [(text, true)]) out h (by simp [hacc])

theorem runSends_all_ok (env : IterEnv) (hok : ∀ i, env.sendOk i = true) :
    ∀ (hws : List PyVal) (texts : List String) (idx : Nat)
      (acc : List (String × Bool)),
    listParse hws = Except.ok texts →
    runSends env idx acc hws =
      (acc ++ texts.map fun t => (t, true), Option.none) := by
  intro hws
  induction hws with
  | nil =>
    intro texts idx acc h
    unfold listParse at h
    injection h with h1
    subst h1
    unfold runSends
    simp
  | cons hw rest ih =>
    intro texts idx acc h
    unfold listParse at h
    rcases hp : parse_status hw with e | text <;> rw [hp] at h
    · exact Except.noConfusion h
    · rcases hl : listParse rest with e | ts <;> rw [hl] at h
      · exact Except.noConfusion h
      · injection h with h1
        subst h1
        unfold runSends
        rw [hp]
        simp only [hok idx, if_true]
        rw [ih ts (idx + 1) (acc ++ [(text, true)]) hl]
        simp

theorem check_response_ok_shape (r : PyVal) (hws : List PyVal) :
    check_response r = Except.ok hws →
    ∃ d, r = PyVal.dict d ∧
      List.lookup "homeworks" d = some (PyVal.list hws) ∧
      ∃ v, List.lookup "current_date" d = some v := by
  intro h
  cases r <;> simp only [check_response] at h <;> try exact Except.noConfusion h
  case dict d =>
  refine ⟨d, rfl, ?_⟩
  rcases h1 : List.lookup "homeworks" d with _ | v <;> rw [h1] at h
  · exact Except.noConfusion h
  · cases v <;> try exact Except.noConfusion h
    case list xs =>
    rcases h2 : List.lookup "current_date" d with _ | w <;> rw [h2] at h
    · exact Except.noConfusion h
    · injection h with h3
      subst h3
      exact ⟨rfl, w, rfl⟩

theorem tryPhase_ok_inv (st : PollState) (env : IterEnv)
    (sends : List (String × Bool)) (r : PyVal) :
    tryPhase st env = (sends, Except.ok r) →
    get_api_answer st.timestamp env.api = Except.ok r ∧
    ∃ hws, check_response r = Except.ok hws ∧
      runSends env 0 [] hws = (sends, Option.none) := by
  intro h
  rcases hga : get_api_answer st.timestamp env.api with e | r0
  · rw [tryPhase_api_error st env e hga] at h
    injection h with h1 h2
    exact Except.noConfusion h2
  · rcases hcr : check_response r0 with e | hws
    · rw [tryPhase_check_error st env r0 e hga hcr] at h
      injection h with h1 h2
      exact Except.noConfusion h2
    · rcases hrs : runSends env 0 [] hws with ⟨s2, oe⟩
      cases oe with
      | none =>
        rw [tryPhase_sends_done st env r0 hws s2 hga hcr hrs] at h
        injection h with h1 h2
        injection h2 with h3
        subst h1
        subst h3
        exact ⟨rfl, hws, hcr, hrs⟩
      | some e =>
        rw [tryPhase_sends_error st env r0 hws s2 e hga hcr hrs] at h
        injection h with h1 h2
        exact Except.noConfusion h2

/-!  Claim theorems. -/

/-- C1 (counterexample): the loop does not deduplicate status
notifications.  Starting from the fresh state, two consecutive successful
iterations whose single homework renders to the same text `tA` each invoke
`send_message` for `tA`: two invocations, not at most one. -/
theorem C1_counterexample :
    ((runLoop st0 [envA, envA]).map fun r => r.failed) = [false, false] ∧
    ((runLoop st0 [envA, envA]).map fun r => r.sends) =
      [[(tA, true)], [(tA, true)]] :=
  ⟨rfl, rfl⟩

/-- C1 (amended): the loop keeps no last-sent status text; in every
successful iteration `send_message` is invoked exactly once per homework
record, in order, with the `parse_status` rendering — regardless of what
any previous iteration sent.  Only error notifications are deduplicated. -/
theorem C1_amended_thm : ∀ (st : PollState) (env : IterEnv) (response : PyVal)
    (hws : List PyVal) (texts : List String),
    get_api_answer st.timestamp env.api = Except.ok response →
    check_response response = Except.ok hws →
    listParse hws = Except.ok texts →
    (∀ i, env.sendOk i = true) →
    (runIter st env).sends = (texts.map fun t => (t, true)) ∧
    (runIter st env).failed = false := by
  intro st env response hws texts hga hcr hlp hok
  have hrs := runSends_all_ok env hok hws texts 0 [] hlp
  rw [List.nil_append] at hrs
  rw [runIter_success_inv st env (texts.map fun t => (t, true)) response
    (tryPhase_sends_done st env response hws _ hga hcr hrs)]
  exact ⟨rfl, rfl⟩

/-- C1 (witness): the amended theorem applied to the concrete approved
homework: one send of `tA`, iteration successful. -/
theorem C1_amended_witness :
    (runIter st0 envA).sends = [(tA, true)] ∧
    (runIter st0 envA).failed = false :=
  C1_amended_thm st0 envA respA [hwA] [tA] rfl rfl rfl fun _ => rfl

/-- C2 (counterexample): with the cursor at 100, a successful iteration
whose response carries `current_date = 5` makes the next iteration request
the API with 5 — the cursor moved backward. -/
theorem C2_counterexample :
    ((runLoop stC2 [envB, envB]).map fun r => r.requested) =
      [PyVal.int 100, PyVal.int 5] ∧
    ((runLoop stC2 [envB, envB]).map fun r => r.failed) = [false, false] ∧
    (5 : Int) < 100 :=
  ⟨rfl, rfl, by decide⟩

/-- C2 (amended): on a failing iteration the cursor is retained unchanged;
on a successful one it is set to the response's `current_date` (wall clock
if absent) without any comparison against the previous value — so the
cursor is monotone only if the API never returns a smaller `current_date`. -/
theorem C2_amended_thm : ∀ (st : PollState) (env : IterEnv),
    (runIter st env).state.timestamp = st.timestamp ∨
    ∃ response, decodedResponse st env = some response ∧
      (runIter st env).failed = false ∧
      (runIter st env).state.timestamp = tsUpdate response env.now := by
  intro st env
  rcases ht : tryPhase st env with ⟨sends, res⟩
  cases res with
  | error e =>
    left
    rw [runIter_failure_inv st env sends e ht]
    exact (handleError_fields st env sends e).1
  | ok r =>
    right
    obtain ⟨hga, -⟩ := tryPhase_ok_inv st env sends r ht
    rw [runIter_success_inv st env sends r ht]
    exact ⟨r, by unfold decodedResponse; rw [hga], rfl, rfl⟩

/-- C3 (counterexample): the non-200 failure escapes `get_api_answer` with
the same error kind (`Exception`) as a transport failure, because the
internally raised `HTTPError` is itself a `RequestException` and is
re-wrapped by the transport handler — the kinds are not distinct. -/
theorem C3_counterexample :
    get_api_answer (PyVal.int 0) (HttpOutcome.response 404 (Except.ok (PyVal.dict []))) =
      Except.error (PyError.exception
        (apiFailMessage "Получен неожиданный статус кода: 404")) ∧
    get_api_answer (PyVal.int 0) (HttpOutcome.transportError "connection refused") =
      Except.error (PyError.exception (apiFailMessage "connection refused")) ∧
    errKind (PyError.exception (apiFailMessage "Получен неожиданный статус кода: 404")) =
      errKind (PyError.exception (apiFailMessage "connection refused")) :=
  ⟨rfl, rfl, rfl⟩

/-- C3 (amended): for every non-200 status `get_api_answer` fails with a
generic `Exception` whose message carries the numeric status code; this is
the same kind as a transport failure, but distinct from the `ValueError`
kind raised for an unparseable body. -/
theorem C3_amended_thm :
    (∀ ts status body, status ≠ 200 →
      get_api_answer ts (.response status body) =
        Except.error (.exception
          (apiFailMessage ("Получен неожиданный статус кода: " ++ toString status)))) ∧
    (∀ ts msg, get_api_answer ts (.transportError msg) =
      Except.error (.exception (apiFailMessage msg))) ∧
    (∀ ts msg, get_api_answer ts (.response 200 (.error msg)) =
      Except.error (.valueError msg)) ∧
    (∀ m1 m2, errKind (.exception m1) = errKind (.exception m2)) ∧
    (∀ m1 m2, errKind (.valueError m1) ≠ errKind (.exception m2)) := by
  refine ⟨?_, fun ts msg => rfl, fun ts msg => rfl, fun m1 m2 => rfl, ?_⟩
  · intro ts status body h
    simp only [get_api_answer]
    rw [if_pos h]
  · intro m1 m2
    simp [errKind]

/-- C3 (witness): the amended theorem at status 500. -/
theorem C3_amended_witness :
    get_api_answer (PyVal.int 0) (HttpOutcome.response 500 (Except.ok (PyVal.dict []))) =
      Except.error (PyError.exception
        (apiFailMessage ("Получен неожиданный статус кода: " ++ toString 500))) :=
  C3_amended_thm.1 (PyVal.int 0) 500 (Except.ok (PyVal.dict [])) (by decide)

/-- C4: the `requests.get` call of `get_api_answer` passes no timeout at
all — not a finite one below the 600-second retry period as the spec
requires — so the request may block indefinitely. -/
theorem C4_no_timeout_thm :
    (∀ ts, (apiRequestArgs ts).timeout = Option.none) ∧ RETRY_PERIOD = 600 :=
  ⟨fun _ => rfl, rfl⟩

/-- C5: if two consecutive iterations fail with the same rendered error
text `cur`, the text is new (differs from `last_error_message`), and the
first delivery succeeds, then exactly one error notification goes out: the
first iteration sends `cur` and the second is suppressed. -/
theorem C5_error_dedup : ∀ (st : PollState) (e1 e2 : IterEnv) (cur : String),
    (runIter st e1).errorText = some cur →
    (runIter (runIter st e1).state e2).errorText = some cur →
    st.last_error_message ≠ some cur →
    e1.errorSendOk = true →
    (runIter st e1).errorSend = some (cur, true) ∧
    (runIter (runIter st e1).state e2).errorSend = Option.none := by
  intro st e1 e2 cur h1 h2 hne hok
  obtain ⟨s1, err1, ht1, hre1, hcur1⟩ := runIter_error_inv st e1 cur h1
  subst hcur1
  rw [hre1] at h2 ⊢
  have hd1 := (handleError_dedup st e1 s1 err1).2.1 hne hok
  refine ⟨hd1.1, ?_⟩
  obtain ⟨s2, err2, ht2, hre2, hcur2⟩ :=
    runIter_error_inv (handleError st e1 s1 err1).state e2 _ h2
  rw [hre2]
  have hlast : (handleError st e1 s1 err1).state.last_error_message =
      some (renderFailure err2) := by
    rw [hd1.2, hcur2]
  exact ((handleError_dedup (handleError st e1 s1 err1).state e2 s2 err2).1 hlast).1

/-- C5 (witness): two consecutive responses missing `homeworks` from the
fresh state with a working channel: the first iteration delivers the error
text, the second is suppressed. -/
theorem C5_witness :
    (runIter st0 envErr).errorSend = some (curErr, true) ∧
    (runIter (runIter st0 envErr).state envErr).errorSend = Option.none :=
  C5_error_dedup st0 envErr envErr curErr rfl rfl (by simp [st0]) rfl

/-- C9: the loop body is total and always reaches the `finally` sleep — it
executes one iteration per supplied environment (never terminating early,
whatever errors occur, including error-notification delivery failures) and
every iteration ends in the sleep-and-retry step. -/
theorem C9_loop_survives : ∀ (st : PollState) (envs : List IterEnv),
    (runLoop st envs).length = envs.length ∧
    ((runLoop st envs).all fun r => r.slept) = true := by
  intro st envs
  induction envs generalizing st with
  | nil => exact ⟨rfl, rfl⟩
  | cons env envs ih =>
    refine ⟨?_, ?_⟩
    · simp [runLoop, (ih ((runIter st env).state)).1]
    · simp [runLoop, List.all_cons, runIter_slept,
        (ih ((runIter st env).state)).2]

/-- C10: if an iteration takes the error path — failed fetch, failed
validation, or a failed status delivery — the cursor is unchanged; on the
success path every status notification was delivered and the cursor equals
the response's `current_date` value. -/
theorem C10_cursor_atomic : ∀ (st : PollState) (env : IterEnv),
    ((runIter st env).failed = true →
      (runIter st env).state.timestamp = st.timestamp) ∧
    ((runIter st env).failed = false →
      ((runIter st env).sends.all fun p => p.2) = true ∧
      ∃ d v, decodedResponse st env = some (PyVal.dict d) ∧
        List.lookup "current_date" d = some v ∧
        (runIter st env).state.timestamp = v) := by
  intro st env
  rcases ht : tryPhase st env with ⟨sends, res⟩
  cases res with
  | error e =>
    rw [runIter_failure_inv st env sends e ht]
    refine ⟨fun _ => (handleError_fields st env sends e).1, fun hf => ?_⟩
    have hx := (handleError_fields st env sends e).2.2.2.1
    simp [IterResult.failed, hx] at hf
  | ok r =>
    obtain ⟨hga, hws, hcr, hrs⟩ := tryPhase_ok_inv st env sends r ht
    obtain ⟨d, hrd, hhw, v, hcd⟩ := check_response_ok_shape r hws hcr
    rw [runIter_success_inv st env sends r ht]
    refine ⟨fun hf => ?_, fun _ => ⟨?_, d, v, ?_, hcd, ?_⟩⟩
    · simp [IterResult.failed, successFinish] at hf
    · exact runSends_delivered env hws 0 [] sends hrs rfl
    · unfold decodedResponse
      rw [hga, hrd]
    · subst hrd
      simp [successFinish, tsUpdate, hcd]

/-- C10 (witness): the theorem at a failing iteration (missing `homeworks`:
cursor stays at 0) and at a successful one (cursor becomes `current_date`
of the response after the delivered send). -/
theorem C10_witness :
    (runIter st0 envErr).state.timestamp = st0.timestamp ∧
    ((runIter st0 envA).sends.all fun p => p.2) = true ∧
    ∃ d v, decodedResponse st0 envA = some (PyVal.dict d) ∧
      List.lookup "current_date" d = some v ∧
      (runIter st0 envA).state.timestamp = v :=
  ⟨(C10_cursor_atomic st0 envErr).1 rfl, (C10_cursor_atomic st0 envA).2 rfl⟩

/-- C6: `check_response` succeeds exactly on the inputs satisfying the
spec's shape predicate (a mapping with a list-valued `homeworks` key and a
`current_date` key); every failure is a shape error (`TypeError` or
`KeyError`); on success it returns precisely the `homeworks` list, and the
empty list is a valid, non-error result. -/
theorem C6_check_response_total :
    (∀ r, exceptOk (check_response r) = goodShapeSpec r) ∧
    (∀ r e, check_response r = Except.error e → isShapeError e = true) ∧
    (∀ r hws, check_response r = Except.ok hws →
      ∃ d, r = PyVal.dict d ∧
        List.lookup "homeworks" d = some (PyVal.list hws)) ∧
    check_response (.dict [("homeworks", .list []), ("current_date", .int 0)]) =
      Except.ok [] := by
  refine ⟨?_, ?_, ?_, rfl⟩
  · intro r
    cases r <;> try rfl
    case dict d =>
    simp only [check_response, goodShapeSpec]
    rcases h1 : List.lookup "homeworks" d with _ | v
    · rfl
    · cases v <;> try rfl
      case list xs =>
      rcases h2 : List.lookup "current_date" d with _ | w <;> rfl
  · intro r e h
    cases r with
    | dict d =>
      simp only [check_response] at h
      rcases h1 : List.lookup "homeworks" d with _ | v <;> rw [h1] at h
      · injection h with h1'
        subst h1'
        rfl
      · cases v <;> try (injection h with h1'; subst h1'; rfl)
        case list xs =>
        rcases h2 : List.lookup "current_date" d with _ | w <;> rw [h2] at h
        · injection h with h1'
          subst h1'
          rfl
        · exact Except.noConfusion h
    | str s => injection h with h1'; subst h1'; rfl
    | int n => injection h with h1'; subst h1'; rfl
    | bool b => injection h with h1'; subst h1'; rfl
    | noneV => injection h with h1'; subst h1'; rfl
    | list xs => injection h with h1'; subst h1'; rfl
  · intro r hws h
    obtain ⟨d, hrd, hhw, -⟩ := check_response_ok_shape r hws h
    exact ⟨d, hrd, hhw⟩

/-- C6 (witness): a non-mapping input fails with a shape error, and the
one-homework response returns its `homeworks` list. -/
theorem C6_witness :
    isShapeError (PyError.typeError "Ответ API не является словарем") = true ∧
    ∃ d, respA = PyVal.dict d ∧
      List.lookup "homeworks" d = some (PyVal.list [hwA]) :=
  ⟨C6_check_response_total.2.1 (PyVal.int 3) _ rfl,
   C6_check_response_total.2.2.1 respA [hwA] rfl⟩

/-- C7: `parse_status` fails on every non-mapping record; on a record
missing `homework_name` or `status` it fails with a `KeyError` whose
message names the missing key; and on a status outside the three-entry
verdict catalog it fails with a `ValueError` whose message carries the
offending status rendering. -/
theorem C7_parse_status_failures :
    (∀ hw, isDict hw = false →
      parse_status hw = Except.error
        (.typeError "Элемент домашней работы не является словарем.")) ∧
    (∀ d, List.lookup "homework_name" d = Option.none →
      parse_status (.dict d) = Except.error
        (.keyError "Отсутствует ключ \"homework_name\" в \"homework\".") ∧
      strContains "Отсутствует ключ \"homework_name\" в \"homework\"."
        "homework_name" = true) ∧
    (∀ d nv, List.lookup "homework_name" d = some nv →
      List.lookup "status" d = Option.none →
      parse_status (.dict d) = Except.error
        (.keyError "Отсутствует ключ \"status\" в \"homework\".") ∧
      strContains "Отсутствует ключ \"status\" в \"homework\"." "status" = true) ∧
    (∀ d nv sv, List.lookup "homework_name" d = some nv →
      List.lookup "status" d = some sv →
      verdictOf sv = Option.none →
      parse_status (.dict d) = Except.error (.valueError
        ("Неизвестный статус домашней работы: \"" ++ pyStr sv ++ "\"."))) ∧
    (∀ s, verdictOf (.str s) = Option.none ↔
      s ≠ "approved" ∧ s ≠ "reviewing" ∧ s ≠ "rejected") := by
  refine ⟨?_, ?_, ?_, ?_, ?_⟩
  · intro hw h
    cases hw <;> first | rfl | simp [isDict] at h
  · intro d h
    refine ⟨?_, rfl⟩
    simp only [parse_status, h]
  · intro d nv hn hs
    refine ⟨?_, rfl⟩
    simp only [parse_status, hn, hs]
  · intro d nv sv hn hs hv
    simp only [parse_status, hn, hs, hv]
  · intro s
    by_cases h1 : s = "approved"
    · subst h1
      simp [verdictOf, HOMEWORK_VERDICTS, List.lookup]
    by_cases h2 : s = "reviewing"
    · subst h2
      simp [verdictOf, HOMEWORK_VERDICTS, List.lookup]
    by_cases h3 : s = "rejected"
    · subst h3
      simp [verdictOf, HOMEWORK_VERDICTS, List.lookup]
    · have b1 : (s == "approved") = false := beq_eq_false_iff_ne.mpr h1
      have b2 : (s == "reviewing") = false := beq_eq_false_iff_ne.mpr h2
      have b3 : (s == "rejected") = false := beq_eq_false_iff_ne.mpr h3
      simp only [verdictOf, HOMEWORK_VERDICTS, List.lookup, b1, b2, b3]
      exact iff_of_true trivial ⟨h1, h2, h3⟩

/-- C7 (witness): the theorem at a non-mapping record, a record with no
keys, and the `unknown_status` record of the spec's scenario. -/
theorem C7_witness :
    parse_status (PyVal.int 0) = Except.error
      (.typeError "Элемент домашней работы не является словарем.") ∧
    (parse_status (.dict []) = Except.error
      (.keyError "Отсутствует ключ \"homework_name\" в \"homework\".") ∧
     strContains "Отсутствует ключ \"homework_name\" в \"homework\"."
       "homework_name" = true) ∧
    parse_status (.dict [("homework_name", .str "hw2"), ("status", .str "unknown_status")]) =
      Except.error (.valueError
        ("Неизвестный статус домашней работы: \"" ++ pyStr (.str "unknown_status") ++ "\".")) :=
  ⟨C7_parse_status_failures.1 (PyVal.int 0) rfl,
   C7_parse_status_failures.2.1 [] rfl,
   C7_parse_status_failures.2.2.2.1
     [("homework_name", .str "hw2"), ("status", .str "unknown_status")]
     (.str "hw2") (.str "unknown_status") rfl rfl rfl⟩

/-- C8: when any required secret is unset or empty, `main` exits with
status 1 before any loop iteration, and the critical message lists every
missing secret; when all three are present, startup proceeds into the
loop.  With only `TELEGRAM_TOKEN` set, the message names both
`PRACTICUM_TOKEN` and `TELEGRAM_CHAT_ID`. -/
theorem C8_check_tokens_startup :
    (∀ p t c now envs, missing_tokens p t c ≠ [] →
      runMain p t c now envs =
        (some (1, tokensErrorMessage (missing_tokens p t c)), [])) ∧
    (∀ p t c now envs, missing_tokens p t c = [] →
      (runMain p t c now envs).1 = Option.none) ∧
    strContains (tokensErrorMessage ["PRACTICUM_TOKEN", "TELEGRAM_CHAT_ID"])
      "PRACTICUM_TOKEN" = true ∧
    strContains (tokensErrorMessage ["PRACTICUM_TOKEN", "TELEGRAM_CHAT_ID"])
      "TELEGRAM_CHAT_ID" = true ∧
    missing_tokens Option.none (some "tok") Option.none =
      ["PRACTICUM_TOKEN", "TELEGRAM_CHAT_ID"] := by
  refine ⟨?_, ?_, rfl, rfl, rfl⟩
  · intro p t c now envs h
    simp only [runMain, check_tokens, if_pos h]
  · intro p t c now envs h
    simp [runMain, check_tokens, h]

/-- C8 (witness): startup with only `TELEGRAM_TOKEN` set exits with status
1 and the message listing the two missing secrets, running no iteration;
startup with all three set proceeds. -/
theorem C8_witness :
    runMain Option.none (some "tok") Option.none 0 [] =
      (some (1, tokensErrorMessage ["PRACTICUM_TOKEN", "TELEGRAM_CHAT_ID"]), []) ∧
    (runMain (some "p") (some "t") (some "c") 0 []).1 = Option.none :=
  ⟨C8_check_tokens_startup.1 Option.none (some "tok") Option.none 0 [] (by decide),
   C8_check_tokens_startup.2.1 (some "p") (some "t") (some "c") 0 [] rfl⟩

end HomeworkBot
